import Mathlib

/-!
Verification of the tool-orchestration client (client.py) of the
Spin8Cycle/mcp-00 repository: a shallow embedding of its data model,
per-turn orchestration (`process_query`), interactive loop (`chat_loop`),
connection establishment (`connect_to_server`) and resource lifecycle
(`main` / `cleanup` over an exit stack), together with theorems settling
the frozen specification claims.
-/

namespace Mcp00

/-- Python str.strip(): drop leading and trailing whitespace. -/
def pyStrip (s : String) : String :=
  String.mk ((s.data.dropWhile Char.isWhitespace).reverse.dropWhile Char.isWhitespace).reverse

/-- Python str.lower() (ASCII case folding suffices for the inputs the
client compares). -/
def pyLower (s : String) : String :=
  String.mk (s.data.map Char.toLower)

/-- Python str.endswith(suffix). -/
def pyEndsWith (s suffix : String) : Bool :=
  suffix.data.isSuffixOf s.data

/-- A structured JSON-like value, used for tool parameter schemas and
for tool-call argument values. -/
inductive JsonVal where
  | null : JsonVal
  | bool (b : Bool) : JsonVal
  | num (n : Int) : JsonVal
  | str (s : String) : JsonVal
  | arr (xs : List JsonVal) : JsonVal
  | obj (fields : List (String × JsonVal)) : JsonVal

/-- A tool-call argument mapping, as produced by `ast.literal_eval` on the
model endpoint's argument payload: string keys to structured values. -/
abbrev Args : Type := List (String × JsonVal)

/-- A tool descriptor as returned by the session's tool listing:
`tool.name`, `tool.description`, `tool.inputSchema` in client.py. -/
structure Tool where
  name : String
  description : String
  inputSchema : JsonVal

/-- One entry of the adapted tool-schema array built in `process_query`
(client.py lines 69-74): a dict with keys type, name, description,
parameters. -/
structure AvailableTool where
  type : String
  name : String
  description : String
  parameters : JsonVal

/-- The Tool Schema Adapter: the list comprehension of client.py lines
69-74, mapping each discovered tool to an entry whose `parameters` field
is the tool's `inputSchema`, passed through unmodified. -/
def formatTools (tools : List Tool) : List AvailableTool :=
  tools.map (fun tool => AvailableTool.mk "function" tool.name tool.description tool.inputSchema)

/-- A typed content block of a tool-call result or of a model message
(`.text` is the only field client.py reads). -/
structure ContentBlock where
  type : String
  text : String

/-- The result of `session.call_tool`: a content sequence and an error
flag, per the MCP result shape. -/
structure ToolCallResult where
  content : List ContentBlock
  isError : Bool

/-- One output item of the model endpoint response: client.py reads
`.type`, and then `.name` and `.arguments` on a function call, or
`.content[0].text` on a message. -/
structure OutputItem where
  type : String
  name : String
  arguments : String
  content : List ContentBlock

/-- The model endpoint response: an ordered list of output items.  An
entry is `none` when the item is Python `None` (falsy in the walrus test
of client.py line 86); an actual item object is always truthy. -/
structure ModelResponse where
  output : List (Option OutputItem)

/-- A role/content message sent to the model endpoint. -/
structure Message where
  role : String
  content : String

/-- The Python exceptions that the embedded client paths can raise. -/
inductive PyError where
  | indexError
  | unboundLocal (v : String)
  | valueError (msg : String)
  | argumentParseError (payload : String)
  | unknownTool (name : String)
  | toolExecutionError
  | spawnError
  | protocolError
  | transportClosed
deriving DecidableEq, Repr

/-- The `str(e)` rendering used by the chat loop's error print. -/
def pyErrorMessage : PyError → String
  | PyError.indexError => "list index out of range"
  | PyError.unboundLocal v => "cannot access local variable " ++ v ++ " where it is not associated with a value"
  | PyError.valueError m => m
  | PyError.argumentParseError p => "malformed node or string: " ++ p
  | PyError.unknownTool n => "Unknown tool: " ++ n
  | PyError.toolExecutionError => "Tool execution failed"
  | PyError.spawnError => "spawn failed"
  | PyError.protocolError => "protocol error"
  | PyError.transportClosed => "transport closed"

/-- The externally supplied behaviour a turn interacts with: the tool
catalog the session's `list_tools` returns, the model endpoint
(`client.responses.create`), `ast.literal_eval`, and the session's
`call_tool` (which either returns a result or raises). -/
structure Env where
  sessionTools : List Tool
  respond : List Message → List AvailableTool → ModelResponse
  literalEval : String → Option Args
  callTool : String → Args → Except PyError ToolCallResult

/-- The observable session traffic of one `process_query` call: how many
`list_tools` requests it issued and which `call_tool` requests it sent. -/
structure TurnEffects where
  listToolsCalls : Nat
  callToolRequests : List (String × Args)

/-- Shallow embedding of `MCPClient.process_query` (client.py lines
57-96), line by line: build the user message, call `session.list_tools`,
adapt the schemas, call the endpoint, then the walrus-guarded branch on
the first output item.  `response.output[0]` on an empty list raises
IndexError; a truthy item dispatches on `.type`; a falsy (`None`) first
item reaches the else branch; if the type is neither function_call nor
message, `final_message` is never assigned and the return raises an
unbound-local error. -/
def process_query (env : Env) (query : String) : Except PyError String × TurnEffects :=
  let messages : List Message := [Message.mk "user" query]
  let tools := env.sessionTools
  let available_tools := formatTools tools
  let response := env.respond messages available_tools
  match response.output with
  | [] => (Except.error PyError.indexError, TurnEffects.mk 1 [])
  | some output :: _ =>
    if output.type == "function_call" then
      let tool_name := output.name
      match env.literalEval output.arguments with
      | none => (Except.error (PyError.argumentParseError output.arguments), TurnEffects.mk 1 [])
      | some tool_args =>
        match env.callTool tool_name tool_args with
        | Except.error e => (Except.error e, TurnEffects.mk 1 [(tool_name, tool_args)])
        | Except.ok tool_call =>
          match tool_call.content with
          | [] => (Except.error PyError.indexError, TurnEffects.mk 1 [(tool_name, tool_args)])
          | c :: _ => (Except.ok c.text, TurnEffects.mk 1 [(tool_name, tool_args)])
    else if output.type == "message" then
      match output.content with
      | [] => (Except.error PyError.indexError, TurnEffects.mk 1 [])
      | c :: _ => (Except.ok c.text, TurnEffects.mk 1 [])
    else
      (Except.error (PyError.unboundLocal "final_message"), TurnEffects.mk 1 [])
  | none :: _ => (Except.ok "No response generated.", TurnEffects.mk 1 [])

/-- The visible outcome of one iteration of the chat loop. -/
inductive TurnOutcome where
  | quit
  | answered (text : String)
  | errored (message : String)
deriving DecidableEq, Repr

/-- One iteration of `MCPClient.chat_loop` (client.py lines 103-114):
strip the input line, break on (case-insensitive) quit, otherwise run
`process_query`; any exception is caught and printed as
`Error: str(e)`. -/
def chat_loop_step (env : Env) (query : String) : TurnOutcome × TurnEffects :=
  let q := pyStrip query
  if pyLower q == "quit" then (TurnOutcome.quit, TurnEffects.mk 0 [])
  else
    match process_query env q with
    | (Except.ok r, eff) => (TurnOutcome.answered r, eff)
    | (Except.error e, eff) => (TurnOutcome.errored ("Error: " ++ pyErrorMessage e), eff)

/-- The chat loop over a finite sequence of input lines: it stops at the
first quit line and otherwise records each turn's outcome and keeps
going — an error never escapes past the loop body's catch-all. -/
def chat_loop (env : Env) : List String → List TurnOutcome
  | [] => []
  | query :: rest =>
    match chat_loop_step env query with
    | (TurnOutcome.quit, _) => [TurnOutcome.quit]
    | (outcome, _) => outcome :: chat_loop env rest

/-- A resource entered into the exit stack by `connect_to_server`:
first the stdio transport context, then the client-session context. -/
inductive Resource where
  | transport
  | session
deriving DecidableEq, Repr

/-- Fault-injection point for the awaited steps of `connect_to_server`:
no failure, the transport spawn (`stdio_client` enter), the session
context enter, `session.initialize()`, or the connect-time
`session.list_tools()`. -/
inductive ConnectFail where
  | noFail
  | atSpawn
  | atSessionEnter
  | atInit
  | atListTools
deriving DecidableEq, Repr

/-- Result of the embedded `connect_to_server`: the outcome, the exit
stack after the call (head = most recently entered context), and how
many transport spawns succeeded. -/
structure ConnectResult where
  result : Except PyError Unit
  stack : List Resource
  spawnCount : Nat

/-- The runtime-selection prefix of `MCPClient.connect_to_server`
(client.py lines 35-40): a path ending in .py selects python, a path
ending in .js selects node, anything else raises ValueError. -/
def select_runtime (server_script_path : String) : Except PyError String :=
  let is_python := pyEndsWith server_script_path ".py"
  let is_js := pyEndsWith server_script_path ".js"
  if !(is_python || is_js) then
    Except.error (PyError.valueError "Server script must be a .py or .js file")
  else
    Except.ok (if is_python then "python" else "node")

/-- Shallow embedding of `MCPClient.connect_to_server` (client.py lines
29-55) with fault injection: extension check first (a ValueError here
precedes any spawn and leaves the stack untouched), then the transport
context and session context are entered onto the exit stack in order,
then `initialize` and the connect-time `list_tools` run; a failure at a
later step leaves the already-entered contexts on the stack. -/
def connect_to_server (server_script_path : String) (fail : ConnectFail)
    (stack : List Resource) : ConnectResult :=
  match select_runtime server_script_path with
  | Except.error e => ConnectResult.mk (Except.error e) stack 0
  | Except.ok _command =>
    match fail with
    | ConnectFail.atSpawn => ConnectResult.mk (Except.error PyError.spawnError) stack 0
    | ConnectFail.atSessionEnter =>
      ConnectResult.mk (Except.error PyError.spawnError) (Resource.transport :: stack) 1
    | ConnectFail.atInit =>
      ConnectResult.mk (Except.error PyError.protocolError)
        (Resource.session :: Resource.transport :: stack) 1
    | ConnectFail.atListTools =>
      ConnectResult.mk (Except.error PyError.transportClosed)
        (Resource.session :: Resource.transport :: stack) 1
    | ConnectFail.noFail =>
      ConnectResult.mk (Except.ok ()) (Resource.session :: Resource.transport :: stack) 1

/-- The observable trace of one run of `main` (client.py lines 120-131):
whether the usage exit was taken, how many times the cleanup path
(`exit_stack.aclose`) ran, which resources it released (in release
order), how many transports were spawned, the chat-loop outcomes, and
the error that propagated to the top level, if any. -/
structure RunTrace where
  usageExit : Bool
  cleanupRuns : Nat
  released : List Resource
  spawnCount : Nat
  outcomes : List TurnOutcome
  raised : Option PyError

/-- Shallow embedding of `main` (client.py lines 120-131): usage exit on
a short argv before any resource exists; otherwise `connect_to_server`
and then `chat_loop` run inside a try whose finally runs
`cleanup` (= `exit_stack.aclose`, releasing every entered context in
reverse entry order) exactly once, whether connect succeeded, connect
raised, or the loop ended by quit or exhausted input. -/
def runMain (argv : List String) (fail : ConnectFail) (env : Env)
    (queries : List String) : RunTrace :=
  if argv.length < 2 then
    RunTrace.mk true 0 [] 0 [] none
  else
    match connect_to_server (argv.getD 1 "") fail [] with
    | ConnectResult.mk (Except.error e) stack spawned =>
      RunTrace.mk false 1 stack spawned [] (some e)
    | ConnectResult.mk (Except.ok _) stack spawned =>
      RunTrace.mk false 1 stack spawned (chat_loop env queries) none

/-- A test double for the Transport underneath the Session: records how
many messages have been sent to the hosting process. -/
structure TransportDouble where
  sendCount : Nat
deriving DecidableEq, Repr

/-- Modelled from the spec: the Session component (spec section 4.2) is
implemented by the external mcp library and is absent from src/ — only
its caller client.py is present.  Per the spec, `callTool` fails with
UnknownTool if the name is not in the cached catalog, checked
client-side before dispatch so no message reaches the Transport;
otherwise it sends one correlated request and fails with
ToolExecutionError when the hosting process reports isError = true,
else returns the result. -/
def SpecSession.callTool (catalog : List Tool) (host : String → Args → ToolCallResult)
    (transport : TransportDouble) (name : String) (args : Args) :
    Except PyError ToolCallResult × TransportDouble :=
  if (catalog.filter (fun tool => tool.name == name)).isEmpty then
    (Except.error (PyError.unknownTool name), transport)
  else
    let transportAfter := TransportDouble.mk (transport.sendCount + 1)
    let result := host name args
    if result.isError then (Except.error PyError.toolExecutionError, transportAfter)
    else (Except.ok result, transportAfter)

/-- A sample discovered tool, mirroring the earthquake server's catalog. -/
def toolQuake : Tool :=
  Tool.mk "get_earthquakes" "Fetch recent earthquake data from the USGS API."
    (JsonVal.obj [("start_time", JsonVal.str "string")])

/-- An environment whose model endpoint returns an empty output list. -/
def envEmptyOutput : Env :=
  Env.mk [toolQuake]
    (fun _ _ => ModelResponse.mk [])
    (fun _ => none)
    (fun _ _ => Except.error PyError.transportClosed)

/-! ## Theorems for the claims -/

/-- C7: for every finite sequence of ToolDescriptors, the Tool Schema
Adapter's output has the same length and ordering as the input, and each
output entry's parameters field is structurally equal to the
corresponding source descriptor's parameter schema, passed through
unmodified (and names correspond positionally, fixing the ordering). -/
theorem c7_adapter_preserves_schema (tools : List Tool) :
    (formatTools tools).length = tools.length ∧
    ∀ i : Nat,
      ((formatTools tools)[i]?).map AvailableTool.parameters =
        (tools[i]?).map Tool.inputSchema ∧
      ((formatTools tools)[i]?).map AvailableTool.name =
        (tools[i]?).map Tool.name := by
  refine ⟨by simp [formatTools], fun i => ?_⟩
  constructor <;>
  · simp only [formatTools, List.getElem?_map]
    cases tools[i]? <;> rfl

/-- C8, amended: every call of process_query (hence every turn of the
chat loop that is not a quit) issues exactly one list_tools query to
the session, re-querying the hosting process rather than reusing the
connect-time catalog. -/
theorem c8_each_turn_queries_list_tools (env : Env) (q : String) :
    (process_query env q).2.listToolsCalls = 1 := by
  unfold process_query
  dsimp only
  repeat' split
  all_goals rfl

/-- C8 counterexample: the claim says no turn after connect-time
discovery issues another list_tools query; yet a single ordinary turn
issues one (count 1, not 0), because process_query begins with
session.list_tools() on every call (client.py line 66). -/
theorem c8_counterexample_turn_queries_again :
    (process_query envEmptyOutput "How strong was it?").2.listToolsCalls = 1 := rfl

/-- C2: the claim says an empty model-endpoint output list yields the
final text "No response generated." with no Session interaction; the
code instead evaluates response.output[0] (client.py line 86), which
raises IndexError on an empty list — the fallback string in the else
branch is unreachable for an empty list — and the chat loop prints the
error.  Moreover the turn has already issued one list_tools request.
This theorem evaluates the embedded code at the failing input. -/
theorem c2_empty_output_raises_index_error :
    process_query envEmptyOutput "Any earthquakes today?" =
      (Except.error PyError.indexError, TurnEffects.mk 1 []) ∧
    chat_loop_step envEmptyOutput "Any earthquakes today?" =
      (TurnOutcome.errored ("Error: " ++ pyErrorMessage PyError.indexError),
        TurnEffects.mk 1 []) := by
  exact ⟨rfl, rfl⟩

/-- C9: the runtime launcher is selected by file extension — .py selects
the python runtime, .js selects the node runtime — and any other
extension makes connect_to_server raise a ValueError-class failure
before any spawn is attempted (spawn count 0, exit stack untouched). -/
theorem c9_runtime_selected_by_extension (path : String) (fail : ConnectFail)
    (stack : List Resource) :
    (pyEndsWith path ".py" = true → select_runtime path = Except.ok "python") ∧
    (pyEndsWith path ".py" = false → pyEndsWith path ".js" = true →
      select_runtime path = Except.ok "node") ∧
    (pyEndsWith path ".py" = false → pyEndsWith path ".js" = false →
      connect_to_server path fail stack =
        ConnectResult.mk
          (Except.error (PyError.valueError "Server script must be a .py or .js file"))
          stack 0) := by
  refine ⟨fun hpy => ?_, fun hpy hjs => ?_, fun hpy hjs => ?_⟩
  · simp [select_runtime, hpy]
  · simp [select_runtime, hpy, hjs]
  · simp [connect_to_server, select_runtime, hpy, hjs]

/-- Witness for C9 at concrete paths: a .py path selects python, a .js
path selects node, and a .txt path fails with ValueError with no spawn. -/
theorem c9_runtime_selected_by_extension_witness :
    (pyEndsWith "srvr_earthquake.py" ".py" = true) ∧
    select_runtime "srvr_earthquake.py" = Except.ok "python" ∧
    (pyEndsWith "server.js" ".py" = false) ∧
    (pyEndsWith "server.js" ".js" = true) ∧
    select_runtime "server.js" = Except.ok "node" ∧
    (pyEndsWith "server.txt" ".py" = false) ∧
    (pyEndsWith "server.txt" ".js" = false) ∧
    connect_to_server "server.txt" ConnectFail.noFail [] =
      ConnectResult.mk
        (Except.error (PyError.valueError "Server script must be a .py or .js file"))
        [] 0 :=
  ⟨by decide,
    (c9_runtime_selected_by_extension "srvr_earthquake.py" ConnectFail.noFail []).1 (by decide),
    by decide, by decide,
    (c9_runtime_selected_by_extension "server.js" ConnectFail.noFail []).2.1
      (by decide) (by decide),
    by decide, by decide,
    (c9_runtime_selected_by_extension "server.txt" ConnectFail.noFail []).2.2
      (by decide) (by decide)⟩

/-- C3: invoking a tool whose name is absent from the session's cached
catalog fails client-side with an UnknownTool-class error and no message
ever reaches the Transport: the transport double is returned unchanged,
so its send count stays what it was (zero sends for this request). -/
theorem c3_unknown_tool_never_reaches_transport (catalog : List Tool)
    (host : String → Args → ToolCallResult) (transport : TransportDouble)
    (name : String) (args : Args)
    (habsent : ∀ tool ∈ catalog, tool.name ≠ name) :
    SpecSession.callTool catalog host transport name args =
      (Except.error (PyError.unknownTool name), transport) := by
  have hfilter : catalog.filter (fun tool => tool.name == name) = [] := by
    rw [List.filter_eq_nil_iff]
    intro a ha
    simp [habsent a ha]
  simp [SpecSession.callTool, hfilter]

/-- Witness for C3: with the earthquake catalog and a transport double
at zero sends, calling an absent tool name yields UnknownTool and the
send count stays zero. -/
theorem c3_unknown_tool_never_reaches_transport_witness :
    (∀ tool ∈ [toolQuake], tool.name ≠ "no_such_tool") ∧
    SpecSession.callTool [toolQuake] (fun _ _ => ToolCallResult.mk [] false)
        (TransportDouble.mk 0) "no_such_tool" [] =
      (Except.error (PyError.unknownTool "no_such_tool"), TransportDouble.mk 0) :=
  ⟨by decide,
    c3_unknown_tool_never_reaches_transport [toolQuake]
      (fun _ _ => ToolCallResult.mk [] false) (TransportDouble.mk 0)
      "no_such_tool" [] (by decide)⟩

/-- C4: when the hosting process reports isError = true for a tool that
is in the catalog, the tool-call path fails with a
ToolExecutionError-class error — the result's first text block is not
returned as the turn's answer (the outcome is Except.error, not
Except.ok of any text). -/
theorem c4_is_error_result_raises (catalog : List Tool)
    (host : String → Args → ToolCallResult) (transport : TransportDouble)
    (name : String) (args : Args)
    (hknown : ∃ tool ∈ catalog, tool.name = name)
    (herr : (host name args).isError = true) :
    SpecSession.callTool catalog host transport name args =
      (Except.error PyError.toolExecutionError,
        TransportDouble.mk (transport.sendCount + 1)) := by
  obtain ⟨t, ht, hname⟩ := hknown
  have hmem : t ∈ catalog.filter (fun tool => tool.name == name) :=
    List.mem_filter.2 ⟨ht, by simp [hname]⟩
  have hfilter : (catalog.filter (fun tool => tool.name == name)).isEmpty = false := by
    cases hfil : catalog.filter (fun tool => tool.name == name) with
    | nil => rw [hfil] at hmem; exact absurd hmem (List.not_mem_nil t)
    | cons a l => rfl
  simp [SpecSession.callTool, hfilter, herr]

/-- Witness for C4: a catalog containing get_earthquakes and a host that
reports isError = true with an explanatory text block; the call fails
with ToolExecutionError and that text block is not the answer. -/
theorem c4_is_error_result_raises_witness :
    (∃ tool ∈ [toolQuake], tool.name = "get_earthquakes") ∧
    SpecSession.callTool [toolQuake]
        (fun _ _ => ToolCallResult.mk [ContentBlock.mk "text" "upstream failure"] true)
        (TransportDouble.mk 0) "get_earthquakes" [] =
      (Except.error PyError.toolExecutionError, TransportDouble.mk 1) :=
  ⟨⟨toolQuake, List.Mem.head _, rfl⟩,
    c4_is_error_result_raises [toolQuake]
      (fun _ _ => ToolCallResult.mk [ContentBlock.mk "text" "upstream failure"] true)
      (TransportDouble.mk 0) "get_earthquakes" []
      ⟨toolQuake, List.Mem.head _, rfl⟩ rfl⟩

/-- The chat loop's error print is never the empty string. -/
theorem error_print_ne_empty (m : String) : ("Error: " ++ m) ≠ "" := by
  intro hc
  have hlen := congrArg String.length hc
  rw [String.length_append] at hlen
  rw [(by decide : ("Error: " : String).length = 7),
    (by decide : ("" : String).length = 0)] at hlen
  omega

/-- C6: a turn in which the model requests a function call and the
session returns a ToolCallResult with isError = false and exactly one
text block "Report A" produces the final text exactly "Report A". -/
theorem c6_tool_result_roundtrip (env : Env) (q : String) (item : OutputItem)
    (args : Args)
    (hresp : env.respond [Message.mk "user" q] (formatTools env.sessionTools) =
      ModelResponse.mk [some item])
    (htype : item.type = "function_call")
    (hparse : env.literalEval item.arguments = some args)
    (hcall : env.callTool item.name args =
      Except.ok (ToolCallResult.mk [ContentBlock.mk "text" "Report A"] false)) :
    process_query env q = (Except.ok "Report A", TurnEffects.mk 1 [(item.name, args)]) := by
  unfold process_query
  dsimp only
  rw [hresp]
  simp [htype, hparse, hcall]

/-- A function-call output item as the endpoint would return it. -/
def itemCallA : OutputItem :=
  OutputItem.mk "function_call" "search_earthquake_by_place" "payloadA" []

/-- The parsed arguments of `itemCallA`. -/
def argsTokyo : Args := [("location", JsonVal.str "Tokyo")]

/-- An environment whose endpoint requests the place-search tool and
whose session returns a single successful text block "Report A". -/
def envReportA : Env :=
  Env.mk [toolQuake]
    (fun _ _ => ModelResponse.mk [some itemCallA])
    (fun s => if s == "payloadA" then some argsTokyo else none)
    (fun n _ =>
      if n == "search_earthquake_by_place" then
        Except.ok (ToolCallResult.mk [ContentBlock.mk "text" "Report A"] false)
      else Except.error PyError.transportClosed)

/-- Witness for C6 at the concrete environment `envReportA`. -/
theorem c6_tool_result_roundtrip_witness :
    process_query envReportA "Any earthquakes near Tokyo?" =
      (Except.ok "Report A", TurnEffects.mk 1 [(itemCallA.name, argsTokyo)]) :=
  c6_tool_result_roundtrip envReportA "Any earthquakes near Tokyo?" itemCallA argsTokyo
    rfl rfl rfl rfl

/-- C5: when the endpoint's sole output item is a function call whose
arguments payload is unparseable, the turn fails with an
ArgumentParseError-class error and issues no call_tool request; the chat
loop catches it (nothing is raised past the loop), prints a non-empty
user-facing error string, and goes on to process the remaining queries
with the session still open (no release happens inside the loop). -/
theorem c5_unparseable_arguments (env : Env) (q : String) (item : OutputItem)
    (rest : List String)
    (hresp : env.respond [Message.mk "user" (pyStrip q)] (formatTools env.sessionTools) =
      ModelResponse.mk [some item])
    (htype : item.type = "function_call")
    (hargs : env.literalEval item.arguments = none)
    (hq : (pyLower (pyStrip q) == "quit") = false) :
    process_query env (pyStrip q) =
      (Except.error (PyError.argumentParseError item.arguments), TurnEffects.mk 1 []) ∧
    chat_loop env (q :: rest) =
      TurnOutcome.errored
          ("Error: " ++ pyErrorMessage (PyError.argumentParseError item.arguments)) ::
        chat_loop env rest ∧
    ("Error: " ++ pyErrorMessage (PyError.argumentParseError item.arguments)) ≠ "" := by
  have h1 : process_query env (pyStrip q) =
      (Except.error (PyError.argumentParseError item.arguments), TurnEffects.mk 1 []) := by
    unfold process_query
    dsimp only
    rw [hresp]
    simp [htype, hargs]
  refine ⟨h1, ?_, error_print_ne_empty _⟩
  simp [chat_loop, chat_loop_step, hq, h1]

/-- A function-call output item whose arguments payload will not parse. -/
def itemBadArgs : OutputItem :=
  OutputItem.mk "function_call" "get_earthquakes" "not a literal" []

/-- An environment whose endpoint requests a tool call with an
unparseable arguments payload. -/
def envBadArgs : Env :=
  Env.mk [toolQuake]
    (fun _ _ => ModelResponse.mk [some itemBadArgs])
    (fun _ => none)
    (fun _ _ => Except.error PyError.transportClosed)

/-- Witness for C5 at the concrete environment `envBadArgs`, with one
further query after the failed turn. -/
theorem c5_unparseable_arguments_witness :
    process_query envBadArgs (pyStrip "find quakes") =
      (Except.error (PyError.argumentParseError itemBadArgs.arguments),
        TurnEffects.mk 1 []) ∧
    chat_loop envBadArgs ("find quakes" :: ["quit"]) =
      TurnOutcome.errored
          ("Error: " ++ pyErrorMessage (PyError.argumentParseError itemBadArgs.arguments)) ::
        chat_loop envBadArgs ["quit"] ∧
    ("Error: " ++ pyErrorMessage (PyError.argumentParseError itemBadArgs.arguments)) ≠ "" :=
  c5_unparseable_arguments envBadArgs "find quakes" itemBadArgs ["quit"]
    rfl rfl rfl (by decide)

/-- C10: when the first output item's type is neither function_call nor
message, no branch of process_query assigns final_message, so the
function raises an unbound-local error instead of returning a final
text; the chat loop's catch-all converts it to a printed error message
and the loop continues with the next query. -/
theorem c10_unassigned_final_message (env : Env) (q : String) (item : OutputItem)
    (rest : List String)
    (hresp : env.respond [Message.mk "user" (pyStrip q)] (formatTools env.sessionTools) =
      ModelResponse.mk [some item])
    (ht1 : (item.type == "function_call") = false)
    (ht2 : (item.type == "message") = false)
    (hq : (pyLower (pyStrip q) == "quit") = false) :
    process_query env (pyStrip q) =
      (Except.error (PyError.unboundLocal "final_message"), TurnEffects.mk 1 []) ∧
    chat_loop env (q :: rest) =
      TurnOutcome.errored
          ("Error: " ++ pyErrorMessage (PyError.unboundLocal "final_message")) ::
        chat_loop env rest := by
  have h1 : process_query env (pyStrip q) =
      (Except.error (PyError.unboundLocal "final_message"), TurnEffects.mk 1 []) := by
    unfold process_query
    dsimp only
    rw [hresp]
    simp [ht1, ht2]
  refine ⟨h1, ?_⟩
  simp [chat_loop, chat_loop_step, hq, h1]

/-- An output item of a type the client does not handle. -/
def itemReasoning : OutputItem :=
  OutputItem.mk "reasoning" "" "" []

/-- An environment whose endpoint returns only an unhandled item type. -/
def envReasoning : Env :=
  Env.mk [toolQuake]
    (fun _ _ => ModelResponse.mk [some itemReasoning])
    (fun _ => none)
    (fun _ _ => Except.error PyError.transportClosed)

/-- Witness for C10 at the concrete environment `envReasoning`. -/
theorem c10_unassigned_final_message_witness :
    process_query envReasoning (pyStrip "hello there") =
      (Except.error (PyError.unboundLocal "final_message"), TurnEffects.mk 1 []) ∧
    chat_loop envReasoning ("hello there" :: ["quit"]) =
      TurnOutcome.errored
          ("Error: " ++ pyErrorMessage (PyError.unboundLocal "final_message")) ::
        chat_loop envReasoning ["quit"] :=
  c10_unassigned_final_message envReasoning "hello there" itemReasoning ["quit"]
    rfl (by decide) (by decide) (by decide)

/-- Whatever the fault point, the number of transports held by the exit
stack after `connect_to_server` equals the number of successful spawns,
and at most one spawn happens per connect. -/
theorem connect_stack_matches_spawn (path : String) (fail : ConnectFail) :
    (connect_to_server path fail []).stack.count Resource.transport =
      (connect_to_server path fail []).spawnCount ∧
    (connect_to_server path fail []).spawnCount ≤ 1 := by
  unfold connect_to_server
  rcases hsel : select_runtime path with e | cmd <;>
    cases fail <;> simp only [hsel] <;> decide

/-- C1: on every run that reaches orchestration (argv supplies the
script path), the release path (`exit_stack.aclose` in `cleanup`, run by
the finally of `main`) executes exactly once — whatever the connect
fault point or turn outcomes — and a spawned transport is released
exactly once, never zero times and never more than once; in particular
an initialize failure after a successful spawn still releases the
transport before the error propagates to the caller. -/
theorem c1_cleanup_exactly_once (argv : List String) (fail : ConnectFail) (env : Env)
    (queries : List String) (h : 2 ≤ argv.length) :
    (runMain argv fail env queries).cleanupRuns = 1 ∧
    (runMain argv fail env queries).released.count Resource.transport =
      (runMain argv fail env queries).spawnCount ∧
    (runMain argv fail env queries).spawnCount ≤ 1 := by
  have hlt : ¬ argv.length < 2 := Nat.not_lt.mpr h
  have hc := connect_stack_matches_spawn (argv.getD 1 "") fail
  unfold runMain
  rw [if_neg hlt]
  rcases hres : connect_to_server (argv.getD 1 "") fail [] with ⟨e | u, stack, spawned⟩ <;>
    rw [hres] at hc <;> exact ⟨rfl, hc.1, hc.2⟩

/-- Witness for C1: a run whose session handshake (initialize) fails
after the transport spawned; cleanup still runs once and the transport
is released exactly once. -/
theorem c1_cleanup_exactly_once_witness :
    2 ≤ (["client.py", "srvr_earthquake.py"] : List String).length ∧
    ((runMain ["client.py", "srvr_earthquake.py"] ConnectFail.atInit envEmptyOutput
        ["quit"]).cleanupRuns = 1 ∧
      (runMain ["client.py", "srvr_earthquake.py"] ConnectFail.atInit envEmptyOutput
          ["quit"]).released.count Resource.transport =
        (runMain ["client.py", "srvr_earthquake.py"] ConnectFail.atInit envEmptyOutput
            ["quit"]).spawnCount ∧
      (runMain ["client.py", "srvr_earthquake.py"] ConnectFail.atInit envEmptyOutput
          ["quit"]).spawnCount ≤ 1) :=
  ⟨by decide,
    c1_cleanup_exactly_once ["client.py", "srvr_earthquake.py"] ConnectFail.atInit
      envEmptyOutput ["quit"] (by decide)⟩

end Mcp00
